import Mathlib

/-!
Shallow embedding of the policy-update engine (src/kitten/rl/ppo.py,
class ProximalPolicyOptimisation) and of the intrinsic-reward shaping layer
(src/curiosity/intrinsic/intrinsic.py, classes IntrinsicReward and
NoIntrinsicReward) of the `curiosity` repository.

Modelling conventions:
* torch tensors are modelled as lists of real numbers; elementwise tensor
  operations become the corresponding list operations;
* Python `int` values used as sizes/counters are modelled as `Nat` (or `Int`
  where a sign matters), Python floats as real numbers;
* fallible operations (numpy indexing errors, constructor argument checks)
  return `Except String`;
* a stateful method is modelled as a pure function from its inputs to its
  result together with an explicit record of its effects.
-/

/-- math.ceil(n / self._minibatch_size) at ppo.py line 53, for natural n and
positive mbs.  Python evaluates `n / mbs` in double precision and applies
math.ceil; for the batch sizes involved this equals the exact natural
ceiling `(n + mbs - 1) / mbs`. -/
def n_minibatches (n mbs : ℕ) : ℕ := (n + mbs - 1) / mbs

/-- Basic indexing of a ONE-dimensional numpy array with a tuple of two
integer subscripts, as written at ppo.py lines 62-64:
`indices[i * self._minibatch_size, min(n, (i + 1) * self._minibatch_size)]`.
`indices = np.arange(n)` (line 59) is a rank-1 array, and numpy rejects a
two-element subscript tuple on a rank-1 array with
`IndexError: too many indices for array`.  (A slice
`indices[a : b]` would select a sub-array instead.) -/
def npIndexPair1D (_xs : List ℕ) (_i _j : ℕ) : Except String (List ℕ) :=
  Except.error "IndexError: too many indices for array"

/-- The minibatch index-selection loop of one epoch of
ProximalPolicyOptimisation.update (ppo.py lines 61-64): for
`i in range(n_minibatches)`, evaluate
`mb_indices = indices[i * mbs, min(n, (i + 1) * mbs)]` on the (shuffled)
rank-1 `indices` array.  The loop body begins with this subscript, so the
epoch's minibatch selection either yields all minibatch index sets or stops
at the first indexing error. -/
def ppoEpochMinibatches (indices : List ℕ) (n mbs : ℕ) :
    Except String (List (List ℕ)) :=
  (List.range (n_minibatches n mbs)).mapM
    (fun i => npIndexPair1D indices (i * mbs) (min n ((i + 1) * mbs)))

noncomputable section

/-- The probability "ratio" exactly as ppo.py line 68 computes it for one
sample: `ratio = (log_prob_update / log_prob_orig)` — an elementwise
QUOTIENT of the two log-probabilities (no exponential is applied). -/
def ratio_code (lp_new lp_old : ℝ) : ℝ := lp_new / lp_old

/-- torch.clamp(x, lo, hi): x capped below by lo and above by hi. -/
def tclamp (x lo hi : ℝ) : ℝ := min (max x lo) hi

/-- torch.mean of a nonempty 1-D tensor: the sum divided by the length. -/
def tmean (xs : List ℝ) : ℝ := xs.sum / xs.length

/-- torch.max of a nonempty 1-D tensor: the greatest element. -/
def tmax (xs : List ℝ) : ℝ := xs.foldl max xs.headI

/-- The elementwise surrogate terms of ppo.py lines 69-72:
`torch.minimum(ratio * a_hat_mb, torch.clamp(ratio, 1-eps, 1+eps) * a_hat_mb)`
over the minibatch's per-sample ratios and advantages (source argument name:
clip_ratio, written here eps). -/
def surrogate_terms (ratios advs : List ℝ) (eps : ℝ) : List ℝ :=
  List.zipWith (fun p a => min (p * a) (tclamp p (1 - eps) (1 + eps) * a))
    ratios advs

/-- actor_loss of ppo.py lines 69-72: the negated mean of the elementwise
minimum of the unclipped and the clipped surrogate terms. -/
def actor_loss (ratios advs : List ℝ) (eps : ℝ) : ℝ :=
  -(tmean (surrogate_terms ratios advs eps))

/-- The running accumulation of ppo.py lines 57 and 74:
`total_loss = 0`, then for every minibatch of every epoch
`total_loss += actor_loss.item()` (the signed scalar, no absolute value);
line 78 returns the accumulated value. -/
def update_total_loss (mb_losses : List ℝ) : ℝ :=
  mb_losses.foldl (fun acc l => acc + l) 0

/-- ProximalPolicyOptimisation.__init__ configuration record (ppo.py lines
25-43): the constructor body only stores its arguments. -/
structure PPOConfig where
  update_epochs : ℤ
  minibatch_size : ℤ
  clip_eps : ℝ
  lr : ℝ

/-- ProximalPolicyOptimisation.__init__ (ppo.py lines 25-43).  The body
assigns the arguments to attributes and builds `torch.optim.Adam(params,
lr)`; the only check reachable for these numeric arguments is Adam's own
validation `0.0 <= lr` (torch raises ValueError otherwise).  None of
update_epochs, minibatch_size or the clip parameter (source name
clip_ratio) is validated. -/
def ppoInit (update_epochs minibatch_size : ℤ) (clip_eps lr : ℝ) :
    Except String PPOConfig :=
  if lr < 0 then Except.error "ValueError: Invalid learning rate"
  else Except.ok ⟨update_epochs, minibatch_size, clip_eps, lr⟩

end

noncomputable section

/-- Modelled from the spec: the Transition tuple of curiosity.experience
(the module is not under src/).  Spec section 3 defines it as the
parallel-array record (s0, a, r, s1, done); intrinsic.py constructs it
positionally as Transition(s_0, a, r, s_1, d).  Observations are modelled
as the flat list of their entries, rewards as one entry per sample. -/
structure Transition where
  s_0 : List ℝ
  a : List ℝ
  r : List ℝ
  s_1 : List ℝ
  d : List Bool

/-- Modelled from the spec: RunningMeanVariance of curiosity.util.stat (the
module is not under src/).  Spec section 3: a running statistic is
"(count, mean, variance) per feature dimension"; the reward shaper's own
statistic tracks the scalar intrinsic reward, so one dimension. -/
structure RunningMeanVariance where
  count : ℝ
  mean : ℝ
  variance : ℝ

/-- Modelled from the spec: the fixed epsilon of the standard-deviation
computation (section 3: "standard deviation exposed as
sqrt(variance + epsilon), epsilon fixed > 0 to avoid division by zero
before any observation").  The spec does not pin its value; 10⁻⁸ is used
here. -/
def rmvEpsilon : ℝ := 1 / 10 ^ 8

/-- Modelled from the spec (section 4.2): std = sqrt(variance + epsilon),
a read-only derived property, defined (and positive) for every state of
the statistic, including the freshly constructed one. -/
def RunningMeanVariance.std (s : RunningMeanVariance) : ℝ :=
  Real.sqrt (s.variance + rmvEpsilon)

/-- Modelled from the spec: a freshly constructed RunningMeanVariance(),
before any observation: count 0, mean 0, variance 0 (spec section 3
invariants: count >= 0, variance >= 0; constructed once per run). -/
def RunningMeanVariance.init : RunningMeanVariance := ⟨0, 0, 0⟩

/-- Modelled from the spec (section 4.2): add_tensor_batch(batch, weights)
merges the weighted sufficient statistics of the new batch into the
accumulator with the parallel-variance (Welford combination) formula. -/
def RunningMeanVariance.add_tensor_batch (s : RunningMeanVariance)
    (xs ws : List ℝ) : RunningMeanVariance :=
  let W := ws.sum
  let mu_b := (List.zipWith (fun x w => x * w) xs ws).sum / W
  let var_b := (List.zipWith (fun x w => w * (x - mu_b) ^ 2) xs ws).sum / W
  let total := s.count + W
  let delta := mu_b - s.mean
  { count := total
    mean := s.mean + delta * W / total
    variance := (s.count * s.variance + W * var_b +
      delta ^ 2 * s.count * W / total) / total }

/-- The attribute state set up by IntrinsicReward.__init__ (intrinsic.py
lines 14-36).  The Python attribute _reward_normalisation holds either
False or a RunningMeanVariance instance and is used in truthiness tests
(`if self._reward_normalisation:`); `Option` models exactly that.  The
constructor body only stores its arguments — no value is validated. -/
structure IntrinsicRewardState where
  int_coef : ℝ
  ext_coef : ℝ
  reward_normalisation : Option RunningMeanVariance
  normalised_obs_clip : Option ℝ

/-- IntrinsicReward.__init__ (intrinsic.py lines 14-36): store int_coef and
ext_coef, set _reward_normalisation to a fresh RunningMeanVariance() when
reward_normalisation is requested and to False otherwise, store the
optional observation clip.  Nothing is checked and nothing can raise. -/
def intrinsicInit (ic ec : ℝ) (rn : Bool) (cl : Option ℝ) :
    IntrinsicRewardState :=
  ⟨ic, ec, if rn then some RunningMeanVariance.init else none, cl⟩

/-- IntrinsicReward._clip_batch (intrinsic.py lines 38-43): when
normalised_obs_clip is set, construct a NEW Transition whose s_0 and s_1
are clamped copies (torch.clamp allocates fresh tensors) while a, r, d are
passed through; otherwise return the batch unchanged.  The caller's batch
is never mutated. -/
def IntrinsicReward._clip_batch (st : IntrinsicRewardState)
    (batch : Transition) : Transition :=
  match st.normalised_obs_clip with
  | some c =>
      { s_0 := batch.s_0.map (fun x => tclamp x (-c) c)
        a := batch.a
        r := batch.r
        s_1 := batch.s_1.map (fun x => tclamp x (-c) c)
        d := batch.d }
  | none => batch

/-- The normalisation step of IntrinsicReward.reward (intrinsic.py lines
53-54): if _reward_normalisation is set,
r_i = r_i / self._reward_normalisation.std.unsqueeze(0) — elementwise
division of the raw intrinsic reward by the statistic's standard
deviation, broadcast over the batch; otherwise r_i is left as computed. -/
def normIntrinsic (o : Option RunningMeanVariance) (xs : List ℝ) : List ℝ :=
  match o with
  | some rmv => xs.map (fun x => x / rmv.std)
  | none => xs

/-- The value returned by IntrinsicReward.reward (intrinsic.py lines
45-62) for a subclass raw intrinsic-reward function f (the abstract
_reward): clip the batch, compute r_i = f(clipped batch), normalise r_i if
enabled, and return
(batch.r * ext_coef + r_i * int_coef, batch.r * ext_coef, r_i * int_coef)
elementwise.  The method's self.info side effect is modelled separately by
rewardInfoUpd. -/
def rewardTriple (st : IntrinsicRewardState) (f : Transition → List ℝ)
    (batch : Transition) : List ℝ × List ℝ × List ℝ :=
  (List.zipWith (fun x y => x * st.ext_coef + y * st.int_coef)
      (IntrinsicReward._clip_batch st batch).r
      (normIntrinsic st.reward_normalisation
        (f (IntrinsicReward._clip_batch st batch))),
   (IntrinsicReward._clip_batch st batch).r.map (fun x => x * st.ext_coef),
   (normIntrinsic st.reward_normalisation
      (f (IntrinsicReward._clip_batch st batch))).map
     (fun y => y * st.int_coef))

/-- A value stored in the self.info diagnostics cache: either a plain
Python float (obtained from a tensor via .item()) or a zero-dimensional
torch tensor holding one scalar. -/
inductive PyVal where
  | pyFloat (x : ℝ)
  | pyTensor (x : ℝ)

/-- Whether a cached diagnostics value is a plain Python float. -/
def PyVal.isFloat : PyVal → Bool
  | .pyFloat _ => true
  | .pyTensor _ => false

/-- The self.info diagnostics cache of IntrinsicReward: the three keys
written by reward (intrinsic.py lines 55-57); after __init__ the cache is
the empty dict, i.e. no key is set. -/
structure Info where
  mean_intrinsic_reward : Option PyVal
  max_intrinsic_reward : Option PyVal
  mean_extrinsic_reward : Option PyVal

/-- The self.info side effect of IntrinsicReward.reward (intrinsic.py
lines 55-57):
  info["mean_intrinsic_reward"] = torch.mean(r_i).item()  — a float;
  info["max_intrinsic_reward"]  = torch.max(r_i).item()   — a float;
  info["mean_extrinsic_reward"] = torch.mean(batch.r)     — a 0-dim
tensor: line 57 applies no .item(). -/
def rewardInfoUpd (info : Info) (st : IntrinsicRewardState)
    (f : Transition → List ℝ) (batch : Transition) : Info :=
  { info with
    mean_intrinsic_reward := some (PyVal.pyFloat (tmean
      (normIntrinsic st.reward_normalisation
        (f (IntrinsicReward._clip_batch st batch)))))
    max_intrinsic_reward := some (PyVal.pyFloat (tmax
      (normIntrinsic st.reward_normalisation
        (f (IntrinsicReward._clip_batch st batch)))))
    mean_extrinsic_reward := some (PyVal.pyTensor (tmean
      (IntrinsicReward._clip_batch st batch).r)) }

/-- IntrinsicReward.get_log (intrinsic.py lines 99-100): returns
self.info. -/
def get_log (info : Info) : Info := info

/-- The effects of one IntrinsicReward.update call: the running statistic
after the call, the list of batches on which the subclass _reward was
evaluated, and the argument passed to the delegated subclass _update. -/
structure UpdateTrace where
  reward_norm : Option RunningMeanVariance
  reward_calls : List Transition
  update_call : Transition × List ℝ × ℕ

/-- IntrinsicReward.update (intrinsic.py lines 68-82): clip the batch;
only if reward normalisation is enabled, evaluate the raw intrinsic reward
on the clipped batch and feed it, weighted by aux.weights, into the
running statistic; finally delegate to the subclass _update on the clipped
batch. -/
def IntrinsicReward.update (st : IntrinsicRewardState)
    (f : Transition → List ℝ) (batch : Transition) (weights : List ℝ)
    (step : ℕ) : UpdateTrace :=
  match st.reward_normalisation with
  | some rmv =>
      { reward_norm := some (rmv.add_tensor_batch
          (f (IntrinsicReward._clip_batch st batch)) weights)
        reward_calls := [IntrinsicReward._clip_batch st batch]
        update_call := (IntrinsicReward._clip_batch st batch, weights, step) }
  | none =>
      { reward_norm := none
        reward_calls := []
        update_call := (IntrinsicReward._clip_batch st batch, weights, step) }

/-- NoIntrinsicReward._reward (intrinsic.py lines 103-104):
torch.zeros(batch.r.shape[0]) — an all-zero vector whose length is the
batch size. -/
def NoIntrinsicReward._reward (batch : Transition) : List ℝ :=
  List.replicate batch.r.length 0

/-- NoIntrinsicReward._update (intrinsic.py lines 105-106): `pass` — the
identity on the subclass state (of which NoIntrinsicReward has none). -/
def NoIntrinsicReward._update (_batch : Transition) (_weights : List ℝ)
    (_step : ℕ) : Unit → Unit := fun u => u

end

/- ## Helper lemmas (shared) -/

/-- One surrogate term when the ratio exceeds the upper clip bound and the
advantage is positive: the clipped branch wins the minimum. -/
theorem clipped_term_eq (p a eps : ℝ) (heps : 0 ≤ eps) (hp : 1 + eps < p)
    (ha : 0 < a) :
    min (p * a) (tclamp p (1 - eps) (1 + eps) * a) = (1 + eps) * a := by
  have h1 : (1 : ℝ) - eps ≤ p := by linarith
  have h2 : tclamp p (1 - eps) (1 + eps) = 1 + eps := by
    unfold tclamp
    rw [max_eq_left h1, min_eq_right hp.le]
  rw [h2]
  exact min_eq_right (mul_le_mul_of_nonneg_right hp.le ha.le)

/-- All surrogate terms collapse to the clipped branch when every ratio
exceeds the upper clip bound and every advantage is positive. -/
theorem surrogate_terms_clipped (ratios advs : List ℝ) (eps : ℝ)
    (heps : 0 ≤ eps) (hlen : ratios.length = advs.length)
    (hr : ∀ p ∈ ratios, 1 + eps < p) (ha : ∀ a ∈ advs, 0 < a) :
    surrogate_terms ratios advs eps = advs.map (fun a => (1 + eps) * a) := by
  induction ratios generalizing advs with
  | nil =>
    cases advs with
    | nil => rfl
    | cons a t => simp at hlen
  | cons p ps ih =>
    cases advs with
    | nil => simp at hlen
    | cons a t =>
      have hterm := clipped_term_eq p a eps heps (hr p (by simp))
        (ha a (by simp))
      have htail := ih t (by simpa using hlen)
        (fun q hq => hr q (by simp [hq])) (fun b hb => ha b (by simp [hb]))
      simp only [surrogate_terms, List.zipWith_cons_cons, List.map_cons] at *
      rw [hterm, htail]

/-- Folding addition over a list from a seed is the seed plus the sum. -/
theorem foldl_add_eq_sum (l : List ℝ) (c : ℝ) :
    l.foldl (fun acc x => acc + x) c = c + l.sum := by
  induction l generalizing c with
  | nil => simp
  | cons x xs ih => simp [ih, add_assoc]

/- ## Claims about ProximalPolicyOptimisation.update -/

/-- Claim C1 (code_bug evidence): the quantity ppo.py line 68 calls `ratio`
is the elementwise quotient of the new and old log-probabilities, not
exp(log_prob_new - log_prob_old).  At log_prob_new = 0, log_prob_old = 1
the code's ratio is 0 while the claimed ratio exp(0 - 1) is positive, so
the two disagree. -/
theorem ppo_ratio_is_log_quotient_not_exp :
    ratio_code 0 1 = 0 ∧ ratio_code 0 1 ≠ Real.exp (0 - 1) := by
  constructor
  · unfold ratio_code
    norm_num
  · unfold ratio_code
    norm_num
    exact (Real.exp_pos _).ne

/-- Claim C2 (code_bug evidence): for N = 100 and minibatch_size = 32 the
code does compute 4 = ceil(100/32) minibatch iterations, but the very first
minibatch index selection subscripts the rank-1 shuffled index array with a
two-element tuple and numpy raises IndexError, so no epoch ever partitions
the permutation into minibatches. -/
theorem ppo_minibatch_tuple_index_raises :
    n_minibatches 100 32 = 4 ∧
    ppoEpochMinibatches (List.range 100) 100 32 =
      Except.error "IndexError: too many indices for array" := by
  constructor
  · rfl
  · rfl

/-- Claim C3: the minibatch loss is the negated mean of the elementwise
minimum of the unclipped and clipped surrogate terms, and when every ratio
exceeds 1 + eps while every advantage is strictly positive the loss equals
the clipped expression -mean((1 + eps) * A). -/
theorem ppo_clipped_surrogate_dominates (ratios advs : List ℝ) (eps : ℝ)
    (heps : 0 ≤ eps) (hlen : ratios.length = advs.length)
    (hr : ∀ p ∈ ratios, 1 + eps < p) (ha : ∀ a ∈ advs, 0 < a) :
    actor_loss ratios advs eps =
      -(tmean (advs.map (fun a => (1 + eps) * a))) := by
  unfold actor_loss
  rw [surrogate_terms_clipped ratios advs eps heps hlen hr ha]

/-- Claim C3 witness: concrete minibatch with ratios [2], advantages [1]
and eps = 1/10; the loss equals the clipped value -(11/10). -/
theorem ppo_clipped_surrogate_dominates_witness :
    (0 : ℝ) ≤ 1 / 10 ∧
    actor_loss [2] [1] (1 / 10) =
      -(tmean ([(1 : ℝ)].map (fun a => (1 + 1 / 10) * a))) := by
  refine ⟨by norm_num, ?_⟩
  exact ppo_clipped_surrogate_dominates [2] [1] (1 / 10) (by norm_num)
    (by simp)
    (by intro p hp; rw [List.mem_singleton] at hp; rw [hp]; norm_num)
    (by intro a haa; rw [List.mem_singleton] at haa; rw [haa]; norm_num)

/-- Claim C4 counterexample: a single minibatch with ratios [1],
advantages [1], eps = 1/10 has actor_loss = -1; the accumulated return is
-1, which differs from the sum of magnitudes, 1.  So the return is not the
summed magnitude of the minibatch losses. -/
theorem ppo_total_loss_not_abs_counterexample :
    update_total_loss [actor_loss [1] [1] (1 / 10)] ≠
      ([actor_loss [1] [1] (1 / 10)].map (fun x => |x|)).sum := by
  have hone : actor_loss [1] [1] (1 / 10) = -1 := by
    unfold actor_loss surrogate_terms tmean tclamp
    norm_num
  rw [hone]
  unfold update_total_loss
  norm_num

/-- Claim C4 as amended: ProximalPolicyOptimisation.update accumulates the
signed per-minibatch scalar losses (`total_loss += actor_loss.item()`), so
the value line 78 returns is the plain sum of the per-minibatch losses
across all epochs, not the sum of their absolute values. -/
theorem ppo_total_loss_signed_sum (mb_losses : List ℝ) :
    update_total_loss mb_losses = mb_losses.sum := by
  unfold update_total_loss
  rw [foldl_add_eq_sum]
  simp

/-- Observation clipping touches only s_0 and s_1: the action, reward and
done components of the clipped batch are those of the input batch. -/
theorem clip_batch_frame (st : IntrinsicRewardState) (b : Transition) :
    (IntrinsicReward._clip_batch st b).a = b.a ∧
    (IntrinsicReward._clip_batch st b).r = b.r ∧
    (IntrinsicReward._clip_batch st b).d = b.d := by
  unfold IntrinsicReward._clip_batch
  cases st.normalised_obs_clip <;> simp

/-- Zipping with the affine combination x * e + y * k is zipping the two
scaled lists with addition. -/
theorem zipWith_affine (e k : ℝ) (rs xs : List ℝ) :
    List.zipWith (fun x y => x * e + y * k) rs xs =
      List.zipWith (fun x y => x + y) (rs.map (fun x => x * e))
        (xs.map (fun y => y * k)) := by
  induction rs generalizing xs with
  | nil => simp
  | cons hd tl ih =>
    cases xs with
    | nil => simp
    | cons x xt =>
      simp only [List.zipWith_cons_cons, List.map_cons]
      rw [ih]

/- ## Claims about the intrinsic-reward shaping layer -/

/-- Claim C5: IntrinsicReward.reward returns the 3-tuple
(ext_coef*r + int_coef*r_i, ext_coef*r, int_coef*r_i): the first component
is the elementwise sum of the other two, the extrinsic component scales
the batch's (clip-invariant) rewards by ext_coef, and the intrinsic
component scales by int_coef the raw subclass reward when normalisation is
disabled, and the raw reward divided elementwise by the shaper's running
standard deviation when it is enabled. -/
theorem intrinsic_reward_triple_spec (st : IntrinsicRewardState)
    (f : Transition → List ℝ) (b : Transition) :
    (rewardTriple st f b).1 =
      List.zipWith (fun x y => x + y) (rewardTriple st f b).2.1
        (rewardTriple st f b).2.2 ∧
    (rewardTriple st f b).2.1 = b.r.map (fun x => x * st.ext_coef) ∧
    (st.reward_normalisation = none →
      (rewardTriple st f b).2.2 =
        (f (IntrinsicReward._clip_batch st b)).map
          (fun y => y * st.int_coef)) ∧
    (∀ rmv, st.reward_normalisation = some rmv →
      (rewardTriple st f b).2.2 =
        (f (IntrinsicReward._clip_batch st b)).map
          (fun y => y / rmv.std * st.int_coef)) := by
  refine ⟨?_, ?_, ?_, ?_⟩
  · unfold rewardTriple
    exact zipWith_affine st.ext_coef st.int_coef _ _
  · unfold rewardTriple
    rw [(clip_batch_frame st b).2.1]
  · intro h
    unfold rewardTriple normIntrinsic
    rw [h]
  · intro rmv h
    unfold rewardTriple normIntrinsic
    rw [h]
    simp [List.map_map, Function.comp]

/-- Claim C6 counterexample: construction with invalid configuration does
not fail.  ProximalPolicyOptimisation with update_epochs = 0,
minibatch_size = -5 and clip parameter 0 constructs successfully (only
Adam's learning-rate check could raise, and lr = 1/1000 passes), and
IntrinsicReward with negative int_coef and ext_coef constructs and stores
the negative coefficients. -/
theorem init_no_validation_counterexample :
    ppoInit 0 (-5) 0 (1 / 1000) = Except.ok ⟨0, -5, 0, 1 / 1000⟩ ∧
    (intrinsicInit (-1) (-1) false none).int_coef = -1 ∧
    (intrinsicInit (-1) (-1) false none).ext_coef = -1 := by
  refine ⟨?_, rfl, rfl⟩
  unfold ppoInit
  rw [if_neg (by norm_num)]

/-- Claim C6 as amended: neither constructor validates the configuration.
ProximalPolicyOptimisation.__init__ stores update_epochs, minibatch_size
and the clip parameter unexamined for every value (the only reachable
check is torch's Adam learning-rate validation), and
IntrinsicReward.__init__ stores int_coef, ext_coef and the clip bound
unexamined; failure is deferred to later use of the objects. -/
theorem init_stores_config (ue mbs : ℤ) (ce lr : ℝ) (h : 0 ≤ lr)
    (ic ec : ℝ) (rn : Bool) (cl : Option ℝ) :
    ppoInit ue mbs ce lr = Except.ok ⟨ue, mbs, ce, lr⟩ ∧
    (intrinsicInit ic ec rn cl).int_coef = ic ∧
    (intrinsicInit ic ec rn cl).ext_coef = ec ∧
    (intrinsicInit ic ec rn cl).normalised_obs_clip = cl ∧
    (intrinsicInit ic ec rn cl).reward_normalisation =
      (if rn then some RunningMeanVariance.init else none) := by
  refine ⟨?_, rfl, rfl, rfl, rfl⟩
  unfold ppoInit
  rw [if_neg (not_lt.mpr h)]

/-- Claim C6 witness: at lr = 0 (and non-positive update_epochs and
minibatch_size) the constructor succeeds and stores the values. -/
theorem init_stores_config_witness :
    (0 : ℝ) ≤ 0 ∧ ppoInit 0 (-1) 0 0 = Except.ok ⟨0, -1, 0, 0⟩ := by
  exact ⟨le_refl 0,
    (init_stores_config 0 (-1) 0 0 (le_refl 0) (-1) (-1) false none).1⟩

/-- Claim C7 counterexample: with reward normalisation enabled and the
statistic freshly constructed (no prior update or initialise), a reward
call on a one-sample batch with extrinsic reward 1 and raw intrinsic
reward 1 is not rejected: it returns ([10001], [1], [10000]), the
intrinsic term having been silently divided by
std = sqrt(0 + 10⁻⁸) = 10⁻⁴. -/
theorem reward_uninitialised_norm_counterexample :
    rewardTriple ⟨1, 1, some RunningMeanVariance.init, none⟩ (fun b => b.r)
      ⟨[], [], [1], [], []⟩ = ([10001], [1], [10000]) := by
  have h0 : RunningMeanVariance.std RunningMeanVariance.init =
      Real.sqrt ((0 : ℝ) + 1 / 10 ^ 8) := rfl
  have hstd : RunningMeanVariance.std RunningMeanVariance.init =
      1 / 10 ^ 4 := by
    rw [h0, zero_add, show (1 / 10 ^ 8 : ℝ) = (1 / 10 ^ 4) ^ 2 by norm_num,
      Real.sqrt_sq (by norm_num)]
  simp only [rewardTriple, normIntrinsic, IntrinsicReward._clip_batch]
  norm_num [hstd]

/-- Claim C7 as amended: with reward normalisation enabled and no
statistic yet observed, IntrinsicReward.reward is not rejected; the
epsilon inside the standard deviation makes std = sqrt(0 + epsilon) > 0,
and the intrinsic term is silently scaled by 1/sqrt(epsilon) (times
int_coef) instead of raising a "not initialized" error. -/
theorem reward_uninitialised_norm_scales (ic ec : ℝ) (cl : Option ℝ)
    (f : Transition → List ℝ) (b : Transition) :
    0 < rmvEpsilon ∧
    RunningMeanVariance.std RunningMeanVariance.init =
      Real.sqrt rmvEpsilon ∧
    (rewardTriple ⟨ic, ec, some RunningMeanVariance.init, cl⟩ f b).2.2 =
      (f (IntrinsicReward._clip_batch
          ⟨ic, ec, some RunningMeanVariance.init, cl⟩ b)).map
        (fun y => y / Real.sqrt rmvEpsilon * ic) := by
  refine ⟨by unfold rmvEpsilon; norm_num, ?_, ?_⟩
  · show Real.sqrt ((0 : ℝ) + rmvEpsilon) = Real.sqrt rmvEpsilon
    rw [zero_add]
  · have hstd : RunningMeanVariance.std RunningMeanVariance.init =
        Real.sqrt rmvEpsilon := by
      show Real.sqrt ((0 : ℝ) + rmvEpsilon) = Real.sqrt rmvEpsilon
      rw [zero_add]
    unfold rewardTriple normIntrinsic
    simp [hstd, List.map_map, Function.comp]

/-- Claim C8: NoIntrinsicReward._reward returns an all-zero vector whose
length is the batch size, NoIntrinsicReward._update is a no-op, and hence
the intrinsic term of IntrinsicReward.reward under NoIntrinsicReward is
the all-zero vector of length the batch size for every shaper state
(normalisation on or off). -/
theorem no_intrinsic_reward_zero (st : IntrinsicRewardState)
    (b : Transition) :
    NoIntrinsicReward._reward b = List.replicate b.r.length 0 ∧
    (∀ u : Unit, NoIntrinsicReward._update b [] 0 u = u) ∧
    (rewardTriple st NoIntrinsicReward._reward b).2.2 =
      List.replicate b.r.length 0 := by
  refine ⟨rfl, fun u => rfl, ?_⟩
  have hr : (IntrinsicReward._clip_batch st b).r = b.r :=
    (clip_batch_frame st b).2.1
  unfold rewardTriple NoIntrinsicReward._reward normIntrinsic
  cases hnorm : st.reward_normalisation with
  | none => simp [hr, List.map_replicate]
  | some rmv => simp [hr, List.map_replicate]

/-- Claim C9 counterexample: after a reward call, the cached
mean_extrinsic_reward is a zero-dimensional tensor (torch.mean(batch.r)
with no .item()), not a plain float — so not every value get_log returns
is a plain float. -/
theorem mean_extrinsic_not_float_counterexample :
    ((rewardInfoUpd ⟨none, none, none⟩ ⟨1, 1, none, none⟩ (fun b => b.r)
        ⟨[], [], [2], [], []⟩).mean_extrinsic_reward.map PyVal.isFloat) =
      some false := by
  simp [rewardInfoUpd, PyVal.isFloat]

/-- Claim C9 as amended: every reward call on a nonempty batch records
mean_intrinsic_reward, max_intrinsic_reward and mean_extrinsic_reward in
the info cache and get_log returns that cache; the two intrinsic
diagnostics are plain floats (.item() is applied), but
mean_extrinsic_reward is stored as a zero-dimensional tensor, not a plain
float. -/
theorem reward_records_diagnostics (info : Info)
    (st : IntrinsicRewardState) (f : Transition → List ℝ) (b : Transition)
    (_hf : f (IntrinsicReward._clip_batch st b) ≠ []) (_hr : b.r ≠ []) :
    get_log (rewardInfoUpd info st f b) = rewardInfoUpd info st f b ∧
    (rewardInfoUpd info st f b).mean_intrinsic_reward =
      some (PyVal.pyFloat (tmean (normIntrinsic st.reward_normalisation
        (f (IntrinsicReward._clip_batch st b))))) ∧
    (rewardInfoUpd info st f b).max_intrinsic_reward =
      some (PyVal.pyFloat (tmax (normIntrinsic st.reward_normalisation
        (f (IntrinsicReward._clip_batch st b))))) ∧
    (rewardInfoUpd info st f b).mean_extrinsic_reward =
      some (PyVal.pyTensor (tmean b.r)) := by
  refine ⟨rfl, rfl, rfl, ?_⟩
  unfold rewardInfoUpd
  rw [(clip_batch_frame st b).2.1]

/-- Claim C9 witness: a concrete nonempty batch; the cached extrinsic
diagnostic is the 0-dim tensor holding the mean reward. -/
theorem reward_records_diagnostics_witness :
    ((fun (b : Transition) => b.r)
        (IntrinsicReward._clip_batch ⟨1, 1, none, none⟩
          ⟨[], [], [2], [], []⟩) ≠ []) ∧
    ([2] : List ℝ) ≠ [] ∧
    (rewardInfoUpd ⟨none, none, none⟩ ⟨1, 1, none, none⟩ (fun b => b.r)
        ⟨[], [], [2], [], []⟩).mean_extrinsic_reward =
      some (PyVal.pyTensor (tmean [2])) := by
  have h1 : (fun (b : Transition) => b.r)
      (IntrinsicReward._clip_batch ⟨1, 1, none, none⟩
        ⟨[], [], [2], [], []⟩) ≠ [] := by
    simp [IntrinsicReward._clip_batch]
  have h2 : ([2] : List ℝ) ≠ [] := by simp
  exact ⟨h1, h2, (reward_records_diagnostics ⟨none, none, none⟩
    ⟨1, 1, none, none⟩ (fun b => b.r) ⟨[], [], [2], [], []⟩ h1 h2).2.2.2⟩

/-- Claim C10: when reward normalisation is disabled,
IntrinsicReward.update never evaluates the subclass _reward, touches no
running statistic, and its only effects are the clipping applied to a
derived copy of the batch (the action, reward and done components — and,
with no clip configured, the whole batch — pass through unchanged) and
the delegated _update call on that clipped batch. -/
theorem update_no_norm_frame (st : IntrinsicRewardState)
    (f : Transition → List ℝ) (batch : Transition) (weights : List ℝ)
    (step : ℕ) (h : st.reward_normalisation = none) :
    (IntrinsicReward.update st f batch weights step).reward_calls = [] ∧
    (IntrinsicReward.update st f batch weights step).reward_norm = none ∧
    (IntrinsicReward.update st f batch weights step).update_call =
      (IntrinsicReward._clip_batch st batch, weights, step) ∧
    (IntrinsicReward._clip_batch st batch).a = batch.a ∧
    (IntrinsicReward._clip_batch st batch).r = batch.r ∧
    (IntrinsicReward._clip_batch st batch).d = batch.d := by
  have hf := clip_batch_frame st batch
  unfold IntrinsicReward.update
  rw [h]
  exact ⟨rfl, rfl, rfl, hf.1, hf.2.1, hf.2.2⟩

/-- Claim C10 witness: a concrete shaper with normalisation disabled; the
update call evaluates the subclass reward zero times. -/
theorem update_no_norm_frame_witness :
    ((⟨1, 1, none, none⟩ : IntrinsicRewardState).reward_normalisation =
      none) ∧
    (IntrinsicReward.update ⟨1, 1, none, none⟩ (fun b => b.r)
        ⟨[], [], [2], [], []⟩ [1] 0).reward_calls = [] := by
  exact ⟨rfl, (update_no_norm_frame ⟨1, 1, none, none⟩ (fun b => b.r)
    ⟨[], [], [2], [], []⟩ [1] 0 rfl).1⟩
